import Mathlib

/-!
Shallow embedding of the OMR (bubble-sheet) pipeline of the
smart-attendance-system repository, together with theorems settling the
frozen claims about it.

Embedded source files:
* `pdf-processing-service/processors/image_processor.py`
  (`ImageProcessor`: corner-marker finding, bubble finding, fill check,
  page processing)
* `pdf-processing-service/processors/omr_processor.py`
  (`OMRProcessor.process_scanned_pdf`, `send_to_attendance_service`)
* `common/circuit_breaker.py` (`CircuitBreaker`)
* `bubble-sheet-generator/generators/barcode_generator.py`
  (`generate_barcode_data`, `decode_barcode_data`)
* `bubble-sheet-generator/generators/pdf_generator.py`
  (`BubbleSheetPDFGenerator` geometry and `_save_bubble_coordinates`)

Modelling conventions:
* Grayscale images are total functions from (row, column) to a natural
  intensity, together with explicit height and width; the OpenCV calls that
  produce contours (`cv2.findContours`, `cv2.boundingRect`,
  `cv2.contourArea`) are opaque library boundaries, so contour lists are
  inputs of the embedded functions, carrying exactly the fields the source
  reads (bounding-box x, y, w, h and the contour area).
* Python floats are modelled as rationals (`ℚ`); Python `int()` truncation
  on nonnegative values is natural-number division.
* Network calls and the wall clock are inputs: each downstream submission
  is given its observed outcome (success/failure) and its timestamp, and
  `datetime.now()` becomes an explicit `now : ℕ` argument.
* Python's stable `list.sort(key=...)` is modelled by a stable insertion
  sort, which computes the same list for the total-preorder keys used by
  the source.
-/

/-- Stable insertion of `a` into a sorted list: `a` goes before the first
element `b` with `le a b`, so an element keeps its place relative to
equal-keyed elements that originally preceded it. -/
def insertStable {α : Type} (le : α → α → Bool) (a : α) : List α → List α
  | [] => [a]
  | b :: bs => if le a b then a :: b :: bs else b :: insertStable le a bs

/-- Stable sort (model of Python's stable `list.sort`). -/
def sortStable {α : Type} (le : α → α → Bool) : List α → List α
  | [] => []
  | a :: l => insertStable le a (sortStable le l)

/-- A grayscale raster image: `pix row col` is the intensity (0–255) at
that coordinate; reads outside `height × width` never happen in the
embedded code paths. -/
structure GrayImage where
  height : ℕ
  width : ℕ
  pix : ℕ → ℕ → ℕ

/-- A contour as the embedded code observes it: the `cv2.boundingRect`
fields `x, y, w, h` and the `cv2.contourArea` value. -/
structure Contour where
  x : ℕ
  y : ℕ
  w : ℕ
  h : ℕ
  contour_area : ℚ

namespace ImageModel

/-- The pixels of `gray` covered by the filled circular mask of radius
`radius` centred at `(cx, cy)` (mask array has the image's shape, so the
mask — and hence every pixel read — is clipped to the image grid, as
`cv2.circle` clips its drawing). Row-major order, matching
`gray[mask > 0]`. -/
def maskPixels (g : GrayImage) (cy cx : ℤ) (radius : ℕ) : List ℕ :=
  (List.range g.height).flatMap (fun (py : ℕ) =>
    (List.range g.width).filterMap (fun (px : ℕ) =>
      if ((px : ℤ) - cx) ^ 2 + ((py : ℤ) - cy) ^ 2 ≤ (radius : ℤ) ^ 2 then
        some (g.pix py px)
      else none))

end ImageModel

/-- `ImageProcessor.__init__` sets `bubble_fill_threshold = 0.50`; the
field is the configurable fill threshold. -/
structure ImageProcessor where
  bubble_fill_threshold : ℚ

/-- The processor as constructed by `ImageProcessor.__init__`. -/
def ImageProcessor.mkDefault : ImageProcessor :=
  { bubble_fill_threshold := 1 / 2 }

namespace ImageProcessor

/-- The clamped centre computed by `check_bubble_by_timing_mark`:
`x = max(radius, min(width - radius, x))` and likewise for `y`
("Ensure within bounds"). Returns `(x, y)`. -/
def clampCenter (g : GrayImage) (timing_mark_y bubble_x : ℤ) (radius : ℕ) :
    ℤ × ℤ :=
  (max (radius : ℤ) (min ((g.width : ℤ) - radius) bubble_x),
   max (radius : ℤ) (min ((g.height : ℤ) - radius) timing_mark_y))

/-- `ImageProcessor.check_bubble_by_timing_mark`: clamp the centre, build
the circular mask, take the masked pixels, and — unless the mask is empty,
which returns `(False, 0.0)` — classify filled when the fraction of pixels
darker than 128 is at least `bubble_fill_threshold`. -/
def check_bubble_by_timing_mark (p : ImageProcessor) (g : GrayImage)
    (timing_mark_y bubble_x : ℤ) (radius : ℕ) : Bool × ℚ :=
  let c := clampCenter g timing_mark_y bubble_x radius
  let pixels := ImageModel.maskPixels g c.2 c.1 radius
  if pixels.length = 0 then (false, 0)
  else
    let dark_count := (pixels.filter (fun v => v < 128)).length
    let fill_percentage : ℚ := (dark_count : ℚ) / (pixels.length : ℚ)
    (decide (fill_percentage ≥ p.bubble_fill_threshold), fill_percentage)

end ImageProcessor

/-- A corner-marker candidate as collected by `find_corner_markers`:
the tuple `(cx, cy, area, w, h)`. -/
structure Square where
  cx : ℕ
  cy : ℕ
  area : ℕ
  w : ℕ
  h : ℕ

namespace ImageProcessor

/-- The candidate filter of `find_corner_markers`: bounding-box area
`w*h` in `(2000, 20000)`, aspect ratio `w/h` in `(0.7, 1.4)` (0 when
`h = 0`), and centre in the right part of the page
(`cx > width * 0.55`). -/
def squareCandidates (width : ℕ) (contours : List Contour) : List Square :=
  contours.filterMap (fun cnt =>
    let area := cnt.w * cnt.h
    let ar : ℚ := if cnt.h = 0 then 0 else (cnt.w : ℚ) / (cnt.h : ℚ)
    if 2000 < area ∧ area < 20000 ∧ 7 / 10 < ar ∧ ar < 14 / 10 then
      let cx : ℕ := cnt.x + cnt.w / 2
      let cy : ℕ := cnt.y + cnt.h / 2
      if (cx : ℚ) > (width : ℚ) * (55 / 100) then
        some ⟨cx, cy, area, cnt.w, cnt.h⟩
      else none
    else none)

/-- `ImageProcessor.find_corner_markers` after the OpenCV stage: from the
contours of the thresholded page, keep the square candidates; fewer than 4
surviving candidates yields `None`; otherwise sort by area (largest
first), take 10, split the y-sorted candidates in half and pick the
leftmost/rightmost of each half as the 4 corners
`[top-left, top-right, bottom-left, bottom-right]`. -/
def find_corner_markers (width : ℕ) (contours : List Contour) :
    Option (List (ℕ × ℕ)) :=
  let squares := squareCandidates width contours
  if squares.length < 4 then none
  else
    let sorted := sortStable (fun a b => b.area ≤ a.area) squares
    let candidates := sorted.take 10
    if candidates.length < 4 then none
    else
      let byY := sortStable (fun a b => a.cy ≤ b.cy) candidates
      let top_half := sortStable (fun a b => a.cx ≤ b.cx)
        (byY.take (byY.length / 2))
      let bottom_half := sortStable (fun a b => a.cx ≤ b.cx)
        (byY.drop (byY.length / 2))
      let dflt : Square := ⟨0, 0, 0, 0, 0⟩
      let top_left := ((top_half.headD dflt).cx, (top_half.headD dflt).cy)
      let top_right :=
        ((top_half.getLastD dflt).cx, (top_half.getLastD dflt).cy)
      let bottom_left :=
        ((bottom_half.headD dflt).cx, (bottom_half.headD dflt).cy)
      let bottom_right :=
        ((bottom_half.getLastD dflt).cx, (bottom_half.getLastD dflt).cy)
      some [top_left, top_right, bottom_left, bottom_right]

/-- `ImageProcessor.find_actual_bubbles` after the OpenCV stage: from the
contours of the binarized page, keep roughly circular large dark blobs
(`cv2.contourArea` in `(2000, 12000)`, aspect `w/h` in `(0.6, 1.5)`,
centre with `cx > width * 0.70` and `850 < cy < 1300`) and sort their
centres top to bottom. -/
def find_actual_bubbles (width : ℕ) (contours : List Contour) :
    List (ℕ × ℕ) :=
  let bubbles := contours.filterMap (fun cnt =>
    if 2000 < cnt.contour_area ∧ cnt.contour_area < 12000 then
      let ar : ℚ := if cnt.h = 0 then 0 else (cnt.w : ℚ) / (cnt.h : ℚ)
      if 6 / 10 < ar ∧ ar < 15 / 10 then
        let cx : ℕ := cnt.x + cnt.w / 2
        let cy : ℕ := cnt.y + cnt.h / 2
        if (cx : ℚ) > (width : ℚ) * (70 / 100) ∧ 850 < cy ∧ cy < 1300 then
          some (cx, cy)
        else none
      else none
    else none)
  sortStable (fun a b => a.2 ≤ b.2) bubbles

end ImageProcessor

/-- A bubble template row as handed to `process_bubble_sheet_page`
(the dict fields the detector reads). -/
structure BubbleTemplate where
  page_number : ℕ
  student_id : String
  student_name : String

/-- `BubbleDetectionResult` dataclass of `image_processor.py`. -/
structure BubbleDetectionResult where
  student_id : String
  student_name : String
  is_filled : Bool
  confidence : ℚ
  bubble_center : ℕ × ℕ
  fill_percentage : ℚ
deriving DecidableEq

namespace ImageProcessor

/-- The per-student confidence computation of `process_bubble_sheet_page`
(lines "Calculate confidence" onward): `min(fill/threshold, 1.0)` when
filled, `1.0 - fill/threshold` otherwise, then clamped into `[0, 1]` by
`max(0, min(1, confidence))`. -/
def confidenceOf (p : ImageProcessor) (is_filled : Bool) (fill : ℚ) : ℚ :=
  let confidence :=
    if is_filled then min (fill / p.bubble_fill_threshold) 1
    else 1 - fill / p.bubble_fill_threshold
  max 0 (min 1 confidence)

/-- The fallback bubble column `int(width * 0.81)`. -/
def fallbackBubbleX (width : ℕ) : ℕ := 81 * width / 100

/-- The alignment stage of `process_bubble_sheet_page`: find corner
markers; if found, detect actual bubbles and take the first detected
bubble's x as the bubble column (falling back to `int(width*0.81)` when
none detected); when no markers are found, continue with fallback
detection — an empty bubble-position list and the fallback column.
Returns `(bubble_positions, bubble_x)`. -/
def pageAlignment (g : GrayImage)
    (cornerContours bubbleContours : List Contour) : List (ℕ × ℕ) × ℕ :=
  match find_corner_markers g.width cornerContours with
  | some _ =>
      let bubble_positions := find_actual_bubbles g.width bubbleContours
      match bubble_positions with
      | pos :: _ => (bubble_positions, pos.1)
      | [] => (bubble_positions, fallbackBubbleX g.width)
  | none => ([], fallbackBubbleX g.width)

/-- The per-student body of the `process_bubble_sheet_page` loop: the
expected row y is `910 + idx * 95`; the first detected bubble within
40 px of it is measured, otherwise the expected position is measured
anyway; the row always yields one `BubbleDetectionResult`. -/
def detectRow (p : ImageProcessor) (g : GrayImage)
    (bubble_positions : List (ℕ × ℕ)) (bubble_x : ℕ) (idx : ℕ)
    (template : BubbleTemplate) : BubbleDetectionResult :=
  let expected_y := 910 + idx * 95
  let m : (Bool × ℚ) × (ℕ × ℕ) :=
    match bubble_positions.find?
        (fun b => |(b.2 : ℤ) - (expected_y : ℤ)| < 40) with
    | some (bcx, bcy) =>
        (p.check_bubble_by_timing_mark g (bcy : ℤ) (bcx : ℤ) 42, (bcx, bcy))
    | none =>
        (p.check_bubble_by_timing_mark g (expected_y : ℤ) (bubble_x : ℤ) 42,
         (bubble_x, expected_y))
  { student_id := template.student_id
    student_name := template.student_name
    is_filled := m.1.1
    confidence := p.confidenceOf m.1.1 m.1.2
    bubble_center := m.2
    fill_percentage := m.1.2 }

/-- `ImageProcessor.process_bubble_sheet_page` after image loading:
alignment stage, then one detection per templated student row. -/
def process_bubble_sheet_page (p : ImageProcessor) (g : GrayImage)
    (cornerContours bubbleContours : List Contour)
    (bubble_templates : List BubbleTemplate) : List BubbleDetectionResult :=
  let a := pageAlignment g cornerContours bubbleContours
  (List.range bubble_templates.length).map (fun idx =>
    detectRow p g a.1 a.2 idx (bubble_templates.getD idx ⟨0, "", ""⟩))

end ImageProcessor

/-- An all-white 15×15 test page (every pixel at intensity 255). -/
def whiteImg : GrayImage := { height := 15, width := 15, pix := fun _ _ => 255 }

/-- A 15×15 test page whose circular mask at the clamped centre `(42, 42)`
(radius 42) covers exactly 10 grid pixels, 5 of which are dark, so the
measured fill fraction is exactly `1/2`. -/
def halfImg : GrayImage :=
  { height := 15, width := 15,
    pix := fun py px => if py = 14 ∨ (py = 13 ∧ px = 14) then 0 else 255 }

/-- An all-white 25×25 test page (big enough for the default radius 12). -/
def wideImg : GrayImage := { height := 25, width := 25, pix := fun _ _ => 255 }

/-- Placeholder detection result used as the `getD` default. -/
def BubbleDetectionResult.empty : BubbleDetectionResult :=
  { student_id := "", student_name := "", is_filled := false,
    confidence := 0, bubble_center := (0, 0), fill_percentage := 0 }

namespace BarcodeGenerator

/-- Decimal digit characters of `n`, most significant first, via the
structural fuel `n + 1` (always sufficient, see `natDigitCharsAux_val`). -/
def natDigitCharsAux : ℕ → ℕ → List Char
  | 0, _ => []
  | fuel + 1, n =>
      if n < 10 then [Nat.digitChar n]
      else natDigitCharsAux fuel (n / 10) ++ [Nat.digitChar (n % 10)]

/-- Decimal representation of a natural number as characters. -/
def natDigitChars (n : ℕ) : List Char := natDigitCharsAux (n + 1) n

/-- Left-pad with `'0'` to the requested width: the Python format
`f"{n:0Wd}"` for nonnegative `n` (longer representations are kept). -/
def formatPadded (width n : ℕ) : List Char :=
  let s := natDigitChars n
  List.replicate (width - s.length) '0' ++ s

/-- `BarcodeGenerator.generate_barcode_data`: 8-digit zero-padded
`abs(hash(lecture_id)) % 100000000` followed by 2-digit-padded page and
total (`f"{page_number:02d}{total_pages:02d}"`). Python's salted string
`hash` is the opaque parameter `hashAbs` (already `abs`-ed, so a natural
number). -/
def generate_barcode_data (hashAbs : String → ℕ) (lecture_id : String)
    (page_number total_pages : ℕ) : List Char :=
  let lecture_hash := hashAbs lecture_id % 100000000
  formatPadded 8 lecture_hash ++ formatPadded 2 page_number ++
    formatPadded 2 total_pages

/-- The whitespace characters stripped by Python's `int()`. -/
def isPySpace (c : Char) : Bool :=
  c = ' ' ∨ c = '\t' ∨ c = '\n' ∨ c = '\r' ∨
    c = Char.ofNat 11 ∨ c = Char.ofNat 12

/-- Numeric value of an ASCII digit character. -/
def digitVal (c : Char) : ℕ := c.toNat - '0'.toNat

/-- Value of a big-endian digit string. -/
def digitsVal (s : List Char) : ℕ :=
  s.foldl (fun acc c => 10 * acc + digitVal c) 0

/-- Model of Python `int(s)` on ASCII strings: strip whitespace on both
sides, take an optional single sign, then a nonempty run of digits.
(Python additionally allows single underscores between digits, which is
impossible in the 2-character slices `decode_barcode_data` parses, and
non-ASCII digits, outside this model's alphabet.) -/
def pyIntOfChars (s : List Char) : Option ℤ :=
  let t := ((s.dropWhile isPySpace).reverse.dropWhile isPySpace).reverse
  match t with
  | [] => none
  | c :: rest =>
      let sg : ℤ × List Char :=
        if c = '+' then (1, rest) else if c = '-' then (-1, rest) else (1, t)
      if sg.2 ≠ [] ∧ sg.2.all Char.isDigit then
        some (sg.1 * (digitsVal sg.2 : ℤ))
      else none

/-- The `_lecture_mapping` hash→lecture-id table populated by
`save_lecture_mapping` (key: first 8 characters of the numeric code). -/
def lookupMapping (mapping : List (List Char × String)) (k : List Char) :
    Option String :=
  (mapping.find? (fun e => e.1 = k)).map (fun e => e.2)

/-- The dictionary returned by `decode_barcode_data`. -/
structure DecodedBarcode where
  lecture_id : String
  page : ℤ
  total_pages : ℤ
  hash : List Char
deriving DecidableEq

/-- `BarcodeGenerator.decode_barcode_data`: reject a payload whose length
is not 12, parse characters 8–9 and 10–11 with `int()` (any parse failure
becomes the same format `ValueError`), look the 8-character hash prefix
up in the mapping and fall back to the synthetic id `"LEC-"+hash`. The
first 8 characters are taken verbatim, unvalidated. -/
def decode_barcode_data (mapping : List (List Char × String))
    (barcode_data : List Char) : Except String DecodedBarcode :=
  if barcode_data.length ≠ 12 then Except.error "Invalid barcode format"
  else
    let lecture_hash := barcode_data.take 8
    match pyIntOfChars ((barcode_data.drop 8).take 2),
        pyIntOfChars ((barcode_data.drop 10).take 2) with
    | some page, some total =>
        Except.ok
          { lecture_id :=
              (lookupMapping mapping lecture_hash).getD
                ("LEC-" ++ String.mk lecture_hash)
            page := page
            total_pages := total
            hash := lecture_hash }
    | _, _ => Except.error "Invalid barcode format"

end BarcodeGenerator

/-- `CircuitState` of `common/circuit_breaker.py`. -/
inductive CircuitState where
  | closed
  | opened
  | halfOpen
deriving DecidableEq

/-- The mutable state of a `CircuitBreaker` (`common/circuit_breaker.py`),
with `datetime.now()` abstracted to natural-number seconds. -/
structure CircuitBreaker where
  name : String
  failure_threshold : ℕ
  timeout : ℕ
  success_threshold : ℕ
  failure_count : ℕ
  success_count : ℕ
  last_failure_time : Option ℕ
  state : CircuitState
deriving DecidableEq

/-- `CircuitBreaker.__init__`. -/
def CircuitBreaker.init (name : String)
    (failure_threshold timeout success_threshold : ℕ) : CircuitBreaker :=
  { name := name
    failure_threshold := failure_threshold
    timeout := timeout
    success_threshold := success_threshold
    failure_count := 0
    success_count := 0
    last_failure_time := none
    state := CircuitState.closed }

/-- The breaker `OMRProcessor.__init__` constructs for the attendance
service: `name="attendance-service", failure_threshold=3, timeout=15,
success_threshold=2`. -/
def attendanceCB : CircuitBreaker :=
  CircuitBreaker.init "attendance-service" 3 15 2

namespace CircuitBreaker

/-- `CircuitBreaker._should_attempt_reset`: true when more than `timeout`
seconds have passed since the last failure. -/
def shouldAttemptReset (cb : CircuitBreaker) (now : ℕ) : Bool :=
  match cb.last_failure_time with
  | none => false
  | some t => t + cb.timeout < now

/-- `CircuitBreaker._on_success`. -/
def onSuccess (cb : CircuitBreaker) : CircuitBreaker :=
  if cb.state = CircuitState.halfOpen then
    let cb := { cb with success_count := cb.success_count + 1 }
    if cb.success_threshold ≤ cb.success_count then
      { cb with
          state := CircuitState.closed
          success_count := 0
          failure_count := 0 }
    else cb
  else { cb with failure_count := 0 }

/-- `CircuitBreaker._on_failure`. -/
def onFailure (cb : CircuitBreaker) (now : ℕ) : CircuitBreaker :=
  let cb := { cb with
      failure_count := cb.failure_count + 1
      last_failure_time := some now }
  if cb.state = CircuitState.halfOpen then
    { cb with state := CircuitState.opened, success_count := 0 }
  else if cb.failure_threshold ≤ cb.failure_count then
    { cb with state := CircuitState.opened }
  else cb

/-- `CircuitBreaker._time_until_retry`:
`max(0, int(timeout - elapsed))` seconds until a retry is allowed
(0 when no failure has been recorded). -/
def timeUntilRetry (cb : CircuitBreaker) (now : ℕ) : ℕ :=
  match cb.last_failure_time with
  | none => 0
  | some t => cb.timeout - (now - t)

/-- `CircuitBreaker.call` at time `now`; `outcome` is what the protected
downstream call does if it is executed: `ok` for success, or the message
of the exception it raises. In the OPEN state without an expired timeout
the call is rejected immediately — `outcome` is never consulted (no
network attempt) — by raising the exception
`f"Circuit breaker [{name}] is OPEN - service unavailable (retry in
{remaining}s)"`; an executed failing call records the failure and
re-raises the downstream exception unchanged. -/
def call (cb : CircuitBreaker) (now : ℕ) (outcome : Except String Unit) :
    Except String Unit × CircuitBreaker :=
  let execute : CircuitBreaker → Except String Unit × CircuitBreaker :=
    fun cb =>
      match outcome with
      | Except.ok _ => (Except.ok (), cb.onSuccess)
      | Except.error m => (Except.error m, cb.onFailure now)
  if cb.state = CircuitState.opened then
    if cb.shouldAttemptReset now then
      execute { cb with state := CircuitState.halfOpen }
    else
      (Except.error
        ("Circuit breaker [" ++ cb.name ++
          "] is OPEN - service unavailable (retry in " ++
          String.mk (BarcodeGenerator.natDigitChars (cb.timeUntilRetry now))
          ++ "s)"),
       cb)
  else execute cb

end CircuitBreaker

/-- Python's substring test `needle in haystack` on strings (as character
lists): some drop of the haystack starts with the needle. -/
def strContains (needle haystack : List Char) : Bool :=
  (List.range (haystack.length + 1)).any
    (fun i => (haystack.drop i).take needle.length == needle)

/-- The summary dictionary returned by
`OMRProcessor.send_to_attendance_service` (counter fields and status). -/
structure SendSummary where
  total_records : ℕ
  success : ℕ
  errors : ℕ
  cb_rejected : ℕ
  status : String
deriving DecidableEq

namespace OMRProcessor

/-- One iteration of the `send_to_attendance_service` loop: run the
record's submission through the breaker; on success bump `success`, on an
exception inspect its message with Python's
`if "circuit is OPEN" in error_msg` — the matching branch bumps
`cb_rejected`, the other bumps `errors`. -/
def sendStep (acc : (ℕ × ℕ × ℕ) × CircuitBreaker)
    (c : ℕ × Except String Unit) : (ℕ × ℕ × ℕ) × CircuitBreaker :=
  let r := acc.2.call c.1 c.2
  match r.1 with
  | Except.ok _ => ((acc.1.1 + 1, acc.1.2.1, acc.1.2.2), r.2)
  | Except.error error_msg =>
      if strContains "circuit is OPEN".toList error_msg.toList then
        ((acc.1.1, acc.1.2.1, acc.1.2.2 + 1), r.2)
      else
        ((acc.1.1, acc.1.2.1 + 1, acc.1.2.2), r.2)

/-- `OMRProcessor.send_to_attendance_service`: submit one record per
call through the circuit breaker; `calls` gives each record's submission
time and would-be downstream outcome (success, or the raised exception's
message). Returns the summary and the final breaker state. -/
def send_to_attendance_service (cb : CircuitBreaker)
    (calls : List (ℕ × Except String Unit)) :
    SendSummary × CircuitBreaker :=
  let r := calls.foldl sendStep ((0, 0, 0), cb)
  ({ total_records := calls.length
     success := r.1.1
     errors := r.1.2.1
     cb_rejected := r.1.2.2
     status :=
       if r.1.2.1 = 0 ∧ r.1.2.2 = 0 then "success" else "partial_success" },
   r.2)

end OMRProcessor

/-- The dictionary produced by `OMRProcessor.read_barcode` for a page
(fields the orchestrator reads). -/
structure BarcodeInfo where
  lecture_id : String
  course_id : Option String
  date : Option String
  page : ℕ
  total_pages : ℕ
deriving DecidableEq

/-- One attendance record emitted by `process_scanned_pdf`. -/
structure AttendanceRecord where
  student_id : String
  lecture_id : String
  course_id : Option String
  date : Option String
  status : String
  confidence : ℚ
  fill_percentage : ℚ
deriving DecidableEq

/-- The per-page environment of `process_scanned_pdf`: the outcome of the
barcode read, the template service's response (before page filtering),
and the page image with its contours. -/
structure PageEnv where
  barcode : Except String BarcodeInfo
  fetched : Except String (List BubbleTemplate)
  gray : GrayImage
  cornerContours : List Contour
  bubbleContours : List Contour

/-- The dictionary returned by `process_scanned_pdf`. -/
structure JobResult where
  lecture_id : Option String
  total_pages : ℕ
  total_students : ℕ
  present : ℕ
  absent : ℕ
  attendance_percentage : ℚ
  attendance_records : List AttendanceRecord
  status : String

/-- Round half to even (Python's `round` on exact values). -/
def roundHalfEven (q : ℚ) : ℤ :=
  let f := ⌊q⌋
  let r := q - f
  if r < 1 / 2 then f
  else if 1 / 2 < r then f + 1
  else if 2 ∣ f then f else f + 1

/-- Python `round(q, 2)` on exact values. -/
def pyRound2 (q : ℚ) : ℚ := (roundHalfEven (q * 100) : ℚ) / 100

namespace OMRProcessor

/-- The body of the per-page `try` block of `process_scanned_pdf`, folded
over the accumulated `(lecture_id, all_results)`: a failed barcode read
leaves everything unchanged; `lecture_id` is assigned before the template
fetch, so it updates even when the page fails later; a failed fetch or an
empty page-filtered template list (the `"No bubble templates found"`
`ValueError`) contributes no records; otherwise the page's detection
results are converted to attendance records and appended. -/
def pageStep (p : ImageProcessor) (acc : Option String × List AttendanceRecord)
    (env : PageEnv) : Option String × List AttendanceRecord :=
  match env.barcode with
  | Except.error _ => acc
  | Except.ok info =>
      let lid := some info.lecture_id
      match env.fetched with
      | Except.error _ => (lid, acc.2)
      | Except.ok templates =>
          let page_templates :=
            templates.filter (fun t => t.page_number == info.page)
          if page_templates.isEmpty then (lid, acc.2)
          else
            let detection := ImageProcessor.process_bubble_sheet_page p
              env.gray env.cornerContours env.bubbleContours page_templates
            (lid, acc.2 ++ detection.map (fun r =>
              { student_id := r.student_id
                lecture_id := info.lecture_id
                course_id := info.course_id
                date := info.date
                status := if r.is_filled then "present" else "absent"
                confidence := r.confidence
                fill_percentage := r.fill_percentage }))

/-- `OMRProcessor.process_scanned_pdf`: process every page inside a
`try/except` that skips failing pages, then aggregate counts and return
the result dictionary — whose `status` field is the literal
`'success'`. -/
def process_scanned_pdf (p : ImageProcessor) (pages : List PageEnv) :
    JobResult :=
  let acc := pages.foldl (pageStep p) (none, [])
  let all_results := acc.2
  let total_students := all_results.length
  let present_count :=
    (all_results.filter (fun r => r.status == "present")).length
  let absent_count := total_students - present_count
  let attendance_percentage : ℚ :=
    if 0 < total_students then
      pyRound2 ((present_count : ℚ) / (total_students : ℚ) * 100)
    else pyRound2 0
  { lecture_id := acc.1
    total_pages := pages.length
    total_students := total_students
    present := present_count
    absent := absent_count
    attendance_percentage := attendance_percentage
    attendance_records := all_results
    status := "success" }

end OMRProcessor

namespace PDFGen

/-- One point per `reportlab` millimetre: `72 / 25.4`. -/
def mmQ : ℚ := 360 / 127

/-- A4 page width (210 mm) in points. -/
def pageWidth : ℚ := 210 * mmQ

/-- A4 page height (297 mm) in points. -/
def pageHeight : ℚ := 297 * mmQ

/-- `self.students_per_page = 30`. -/
def students_per_page : ℕ := 30

/-- `self.row_height = 8 * mm`. -/
def row_height : ℚ := 8 * mmQ

/-- `self.header_height = 50 * mm`. -/
def header_height : ℚ := 50 * mmQ

/-- `self.bubble_radius = 3 * mm`. -/
def bubble_radius : ℚ := 3 * mmQ

/-- `self.bubble_x_offset = self.page_width - 40 * mm`. -/
def bubble_x_offset : ℚ := pageWidth - 40 * mmQ

/-- A student dictionary (`id`, `name`). -/
structure Student where
  id : String
  name : String
deriving DecidableEq

/-- The `_bubble_area_bounds` computed by `_draw_bubble_area_markers`. -/
structure Bounds where
  top_y : ℚ
  bottom_y : ℚ
  left_x : ℚ
  right_x : ℚ

/-- `first_bubble_y` of `_draw_bubble_area_markers`:
`page_height - header_height - 20mm - 2mm - row_height + 3mm`. -/
def first_bubble_y : ℚ :=
  pageHeight - header_height - 20 * mmQ - 2 * mmQ - row_height + 3 * mmQ

/-- The bubble-area bounds drawn by `_draw_bubble_area_markers` for a page
with `students_count` rows: 10 mm margin around the bubble column, with
5 mm extra on the left for the timing marks. -/
def bubbleAreaBounds (students_count : ℕ) : Bounds :=
  let last_bubble_y :=
    first_bubble_y - ((students_count : ℚ) - 1) * row_height
  let margin := 10 * mmQ
  { top_y := first_bubble_y + margin
    bottom_y := last_bubble_y - margin
    left_x := bubble_x_offset - margin - 5 * mmQ
    right_x := bubble_x_offset + margin }

/-- A `bubble_templates` row as persisted by `_save_bubble_coordinates`. -/
structure TemplateRecord where
  lecture_id : String
  page_number : ℕ
  student_id : String
  student_name : String
  row_number : ℕ
  bubble_x : ℚ
  bubble_y : ℚ
  bubble_radius : ℚ
  bubble_x_ratio : ℚ
  bubble_y_ratio : ℚ
deriving DecidableEq

/-- `BubbleSheetPDFGenerator._save_bubble_coordinates`: one record per
student on the page; the i-th (0-based) row's `bubble_y` is
`(page_height - header_height - 20mm - 2mm - row_height) - i*row_height
+ 3mm`, matching the drawing code; ratios are computed within the
bubble-area bounds when available, else relative to the whole page. -/
def save_bubble_coordinates (lecture_id : String) (page_num : ℕ)
    (students : List Student) (bounds : Option Bounds) :
    List TemplateRecord :=
  let y0 : ℚ := pageHeight - header_height - 20 * mmQ - 2 * mmQ - row_height
  (List.range students.length).map (fun i =>
    let student := students.getD i ⟨"", ""⟩
    let row_num := (page_num - 1) * students_per_page + (i + 1)
    let bubble_y := (y0 - (i : ℚ) * row_height) + 3 * mmQ
    let ratios : ℚ × ℚ :=
      match bounds with
      | some b =>
          let area_width := b.right_x - b.left_x
          let area_height := b.top_y - b.bottom_y
          ((bubble_x_offset - b.left_x) / area_width,
           (bubble_y - b.bottom_y) / area_height)
      | none => (bubble_x_offset / pageWidth, bubble_y / pageHeight)
    { lecture_id := lecture_id
      page_number := page_num
      student_id := student.id
      student_name := student.name
      row_number := row_num
      bubble_x := bubble_x_offset
      bubble_y := bubble_y
      bubble_radius := bubble_radius
      bubble_x_ratio := ratios.1
      bubble_y_ratio := ratios.2 })

/-- `total_pages = (total_students + students_per_page - 1) //
students_per_page`. -/
def totalPagesOf (total_students : ℕ) : ℕ :=
  (total_students + students_per_page - 1) / students_per_page

/-- The students sliced onto page `page_num`
(`students[start_idx:end_idx]`). -/
def pageStudents (students : List Student) (page_num : ℕ) : List Student :=
  (students.drop ((page_num - 1) * students_per_page)).take students_per_page

/-- The template records persisted by `generate_bubble_sheet`: for each
page, `_draw_page` first sets the bubble-area bounds for that page's
student count, then `_save_bubble_coordinates` persists that page's
rows. -/
def generate_bubble_sheet (lecture_id : String) (students : List Student) :
    List TemplateRecord :=
  (List.range (totalPagesOf students.length)).flatMap (fun i =>
    let page_num := i + 1
    let page_students := pageStudents students page_num
    save_bubble_coordinates lecture_id page_num page_students
      (some (bubbleAreaBounds page_students.length)))

end PDFGen

/-- A concrete single page whose barcode decodes to lecture `"L1"`,
page 1, but whose fetched templates only cover page 2 — so the page-level
template filter comes back empty. -/
def pageNoTemplate : PageEnv :=
  { barcode := Except.ok ⟨"L1", none, none, 1, 1⟩
    fetched := Except.ok [⟨2, "S1", "A"⟩]
    gray := whiteImg
    cornerContours := []
    bubbleContours := [] }

namespace ImageProcessor

lemma check_bubble_snd_bounds (p : ImageProcessor) (g : GrayImage)
    (ty bx : ℤ) (r : ℕ) :
    0 ≤ (p.check_bubble_by_timing_mark g ty bx r).2 ∧
      (p.check_bubble_by_timing_mark g ty bx r).2 ≤ 1 := by
  unfold check_bubble_by_timing_mark
  set pixels := ImageModel.maskPixels g (clampCenter g ty bx r).2
    (clampCenter g ty bx r).1 r with hp
  by_cases h : pixels.length = 0
  · simp [h]
  · have hpos : (0 : ℚ) < pixels.length := by
      exact_mod_cast Nat.pos_of_ne_zero h
    simp only [h, if_false]
    constructor
    · exact div_nonneg (by positivity) (by positivity)
    · rw [div_le_one hpos]
      exact_mod_cast List.length_filter_le _ _

lemma check_bubble_fst_iff (p : ImageProcessor) (g : GrayImage)
    (ty bx : ℤ) (r : ℕ) (h : 0 < p.bubble_fill_threshold) :
    (p.check_bubble_by_timing_mark g ty bx r).1 = true ↔
      p.bubble_fill_threshold ≤ (p.check_bubble_by_timing_mark g ty bx r).2 := by
  unfold check_bubble_by_timing_mark
  set pixels := ImageModel.maskPixels g (clampCenter g ty bx r).2
    (clampCenter g ty bx r).1 r with hp
  by_cases hl : pixels.length = 0
  · simp [hl]
    linarith
  · simp [hl, ge_iff_le]

lemma check_bubble_of_empty_mask (p : ImageProcessor) (g : GrayImage)
    (ty bx : ℤ) (r : ℕ)
    (h : ImageModel.maskPixels g (clampCenter g ty bx r).2
      (clampCenter g ty bx r).1 r = []) :
    p.check_bubble_by_timing_mark g ty bx r = (false, 0) := by
  unfold check_bubble_by_timing_mark
  simp [h]

lemma clampCenter_bounds (g : GrayImage) (ty bx : ℤ) (r : ℕ)
    (hw : 2 * r < g.width) (hh : 2 * r < g.height) :
    (r : ℤ) ≤ (clampCenter g ty bx r).1 ∧
      (clampCenter g ty bx r).1 ≤ (g.width : ℤ) - r ∧
      (r : ℤ) ≤ (clampCenter g ty bx r).2 ∧
      (clampCenter g ty bx r).2 ≤ (g.height : ℤ) - r := by
  unfold clampCenter
  refine ⟨le_max_left _ _, max_le (by omega) (min_le_left _ _),
    le_max_left _ _, max_le (by omega) (min_le_left _ _)⟩

lemma disc_in_grid (g : GrayImage) (ty bx : ℤ) (r : ℕ)
    (hw : 2 * r < g.width) (hh : 2 * r < g.height) :
    ∀ px py : ℤ,
      (px - (clampCenter g ty bx r).1) ^ 2 +
        (py - (clampCenter g ty bx r).2) ^ 2 < (r : ℤ) ^ 2 →
      0 ≤ px ∧ px < g.width ∧ 0 ≤ py ∧ py < g.height := by
  intro px py hlt
  obtain ⟨h1, h2, h3, h4⟩ := clampCenter_bounds g ty bx r hw hh
  have hx : |px - (clampCenter g ty bx r).1| < (r : ℤ) :=
    abs_lt_of_sq_lt_sq
      (by nlinarith [sq_nonneg (py - (clampCenter g ty bx r).2)])
      (by positivity)
  have hy : |py - (clampCenter g ty bx r).2| < (r : ℤ) :=
    abs_lt_of_sq_lt_sq
      (by nlinarith [sq_nonneg (px - (clampCenter g ty bx r).1)])
      (by positivity)
  rw [abs_lt] at hx hy
  omega

end ImageProcessor

/-- C6: the bubble is classified filled exactly when the measured fill
fraction is at least the configured fill threshold, and a fraction equal
to the threshold is classified filled (inclusive boundary), for any
positive configured threshold. -/
theorem claim_C6_fill_classification (p : ImageProcessor) (g : GrayImage)
    (ty bx : ℤ) (r : ℕ) (hthr : 0 < p.bubble_fill_threshold) :
    ((p.check_bubble_by_timing_mark g ty bx r).1 = true ↔
      p.bubble_fill_threshold ≤ (p.check_bubble_by_timing_mark g ty bx r).2) ∧
    ((p.check_bubble_by_timing_mark g ty bx r).2 = p.bubble_fill_threshold →
      (p.check_bubble_by_timing_mark g ty bx r).1 = true) := by
  refine ⟨ImageProcessor.check_bubble_fst_iff p g ty bx r hthr, fun he => ?_⟩
  exact (ImageProcessor.check_bubble_fst_iff p g ty bx r hthr).2 (le_of_eq he.symm)

/-- Witness for C6 at the default processor and a concrete 15×15 page
whose mask fill fraction is exactly `1/2`, the configured threshold. -/
theorem claim_C6_witness :
    0 < ImageProcessor.mkDefault.bubble_fill_threshold ∧
    (((ImageProcessor.mkDefault.check_bubble_by_timing_mark halfImg 910 12 42).1
        = true ↔
      ImageProcessor.mkDefault.bubble_fill_threshold ≤
        (ImageProcessor.mkDefault.check_bubble_by_timing_mark halfImg
          910 12 42).2) ∧
    ((ImageProcessor.mkDefault.check_bubble_by_timing_mark halfImg 910 12 42).2
        = ImageProcessor.mkDefault.bubble_fill_threshold →
      (ImageProcessor.mkDefault.check_bubble_by_timing_mark halfImg
        910 12 42).1 = true)) :=
  ⟨by norm_num [ImageProcessor.mkDefault],
   claim_C6_fill_classification ImageProcessor.mkDefault halfImg 910 12 42
     (by norm_num [ImageProcessor.mkDefault])⟩

/-- C10: for any image larger than twice the radius in both dimensions
and any integer centre coordinates (inside the image or not), the fill
check clamps the centre into `[radius, dimension - radius]` in both axes,
every point of the open disc around the clamped centre lies inside the
image grid (and the mask itself only ever reads grid pixels), the returned
fill fraction lies in `[0, 1]`, and an empty mask yields `(False, 0.0)`
rather than an error. -/
theorem claim_C10_check_bubble_safety (p : ImageProcessor) (g : GrayImage)
    (ty bx : ℤ) (r : ℕ) (hw : 2 * r < g.width) (hh : 2 * r < g.height) :
    ((r : ℤ) ≤ (ImageProcessor.clampCenter g ty bx r).1 ∧
      (ImageProcessor.clampCenter g ty bx r).1 ≤ (g.width : ℤ) - r ∧
      (r : ℤ) ≤ (ImageProcessor.clampCenter g ty bx r).2 ∧
      (ImageProcessor.clampCenter g ty bx r).2 ≤ (g.height : ℤ) - r) ∧
    (∀ px py : ℤ,
      (px - (ImageProcessor.clampCenter g ty bx r).1) ^ 2 +
        (py - (ImageProcessor.clampCenter g ty bx r).2) ^ 2 < (r : ℤ) ^ 2 →
      0 ≤ px ∧ px < g.width ∧ 0 ≤ py ∧ py < g.height) ∧
    (0 ≤ (p.check_bubble_by_timing_mark g ty bx r).2 ∧
      (p.check_bubble_by_timing_mark g ty bx r).2 ≤ 1) ∧
    (ImageModel.maskPixels g (ImageProcessor.clampCenter g ty bx r).2
        (ImageProcessor.clampCenter g ty bx r).1 r = [] →
      p.check_bubble_by_timing_mark g ty bx r = (false, 0)) :=
  ⟨ImageProcessor.clampCenter_bounds g ty bx r hw hh,
   ImageProcessor.disc_in_grid g ty bx r hw hh,
   ImageProcessor.check_bubble_snd_bounds p g ty bx r,
   ImageProcessor.check_bubble_of_empty_mask p g ty bx r⟩

/-- Witness for C10 on a concrete 25×25 page with the default radius 12
and a centre far outside the image. -/
theorem claim_C10_witness :
    (2 * 12 < wideImg.width ∧ 2 * 12 < wideImg.height) ∧
    (((12 : ℤ) ≤ (ImageProcessor.clampCenter wideImg (-100) 1000 12).1 ∧
      (ImageProcessor.clampCenter wideImg (-100) 1000 12).1 ≤
        (wideImg.width : ℤ) - 12 ∧
      (12 : ℤ) ≤ (ImageProcessor.clampCenter wideImg (-100) 1000 12).2 ∧
      (ImageProcessor.clampCenter wideImg (-100) 1000 12).2 ≤
        (wideImg.height : ℤ) - 12) ∧
    (∀ px py : ℤ,
      (px - (ImageProcessor.clampCenter wideImg (-100) 1000 12).1) ^ 2 +
        (py - (ImageProcessor.clampCenter wideImg (-100) 1000 12).2) ^ 2 <
          (12 : ℤ) ^ 2 →
      0 ≤ px ∧ px < wideImg.width ∧ 0 ≤ py ∧ py < wideImg.height) ∧
    (0 ≤ (ImageProcessor.mkDefault.check_bubble_by_timing_mark wideImg
        (-100) 1000 12).2 ∧
      (ImageProcessor.mkDefault.check_bubble_by_timing_mark wideImg
        (-100) 1000 12).2 ≤ 1) ∧
    (ImageModel.maskPixels wideImg
        (ImageProcessor.clampCenter wideImg (-100) 1000 12).2
        (ImageProcessor.clampCenter wideImg (-100) 1000 12).1 12 = [] →
      ImageProcessor.mkDefault.check_bubble_by_timing_mark wideImg
        (-100) 1000 12 = (false, 0))) :=
  ⟨⟨by decide, by decide⟩,
   claim_C10_check_bubble_safety ImageProcessor.mkDefault wideImg (-100) 1000
     12 (by decide) (by decide)⟩

lemma range_map_getD {α β : Type} (l : List α) (d : α) (f : α → β) :
    (List.range l.length).map (fun i => f (l.getD i d)) = l.map f := by
  apply List.ext_getElem
  · simp
  · intro i h1 h2
    simp only [List.getElem_map, List.getElem_range]
    rw [List.getD_eq_getElem l d (by simpa using h2)]

lemma mem_process_iff (p : ImageProcessor) (g : GrayImage)
    (cc bc : List Contour) (ts : List BubbleTemplate)
    (res : BubbleDetectionResult)
    (h : res ∈ ImageProcessor.process_bubble_sheet_page p g cc bc ts) :
    ∃ idx, idx < ts.length ∧
      res = ImageProcessor.detectRow p g
        (ImageProcessor.pageAlignment g cc bc).1
        (ImageProcessor.pageAlignment g cc bc).2 idx
        (ts.getD idx ⟨0, "", ""⟩) := by
  unfold ImageProcessor.process_bubble_sheet_page at h
  simp only [List.mem_map, List.mem_range] at h
  obtain ⟨idx, hlt, heq⟩ := h
  exact ⟨idx, hlt, heq.symm⟩

namespace ImageProcessor

lemma confidenceOf_mem_unit (p : ImageProcessor) (b : Bool) (q : ℚ) :
    0 ≤ p.confidenceOf b q ∧ p.confidenceOf b q ≤ 1 := by
  unfold confidenceOf
  exact ⟨le_max_left _ _, max_le (by norm_num) (min_le_left _ _)⟩

lemma confidenceOf_of_filled (p : ImageProcessor) (g : GrayImage)
    (ty bx : ℤ) (r : ℕ) (hthr : 0 < p.bubble_fill_threshold)
    (h : (p.check_bubble_by_timing_mark g ty bx r).1 = true) :
    p.confidenceOf (p.check_bubble_by_timing_mark g ty bx r).1
      (p.check_bubble_by_timing_mark g ty bx r).2 = 1 := by
  have hq := (check_bubble_fst_iff p g ty bx r hthr).1 h
  rw [h]
  unfold confidenceOf
  have h1 : (1 : ℚ) ≤ (p.check_bubble_by_timing_mark g ty bx r).2 /
      p.bubble_fill_threshold := (one_le_div hthr).2 hq
  simp [min_eq_right h1]

lemma detectRow_fields (p : ImageProcessor) (g : GrayImage)
    (pos : List (ℕ × ℕ)) (bx : ℕ) (idx : ℕ) (t : BubbleTemplate) :
    ∃ y x : ℤ,
      (detectRow p g pos bx idx t).is_filled =
        (p.check_bubble_by_timing_mark g y x 42).1 ∧
      (detectRow p g pos bx idx t).fill_percentage =
        (p.check_bubble_by_timing_mark g y x 42).2 ∧
      (detectRow p g pos bx idx t).confidence =
        p.confidenceOf (p.check_bubble_by_timing_mark g y x 42).1
          (p.check_bubble_by_timing_mark g y x 42).2 := by
  unfold detectRow
  dsimp only
  split
  · next bcx bcy hfb => exact ⟨(bcy : ℤ), (bcx : ℤ), rfl, rfl, rfl⟩
  · next hfb => exact ⟨_, _, rfl, rfl, rfl⟩

end ImageProcessor

/-- C1 counterexample: a page with zero corner-marker candidates (fewer
than 4) does not fail — `find_corner_markers` returns `None` and
`process_bubble_sheet_page` still produces one detection result for its
templated student (the claim demanded a `CalibrationNotFoundError`
failure with no result records; no such error class exists in the
code). -/
theorem claim_C1_counterexample :
    ImageProcessor.find_corner_markers whiteImg.width [] = none ∧
    (ImageProcessor.process_bubble_sheet_page ImageProcessor.mkDefault
      whiteImg [] [] [⟨1, "S1", "Alice"⟩]).length = 1 :=
  ⟨rfl, rfl⟩

/-- C1 amended: when fewer than 4 plausible corner markers survive the
candidate filter, `find_corner_markers` returns `None` and the page is
not failed: `process_bubble_sheet_page` prints a warning and silently
continues with fallback coordinates — no detected bubble positions and
the fallback column `int(width*0.81)` — still emitting one result per
templated student, each measured at the expected fallback position. -/
theorem claim_C1_fallback_amended (p : ImageProcessor) (g : GrayImage)
    (cc bc : List Contour) (ts : List BubbleTemplate)
    (h4 : (ImageProcessor.squareCandidates g.width cc).length < 4) :
    ImageProcessor.find_corner_markers g.width cc = none ∧
    ImageProcessor.pageAlignment g cc bc =
      ([], ImageProcessor.fallbackBubbleX g.width) ∧
    (ImageProcessor.process_bubble_sheet_page p g cc bc ts).length =
      ts.length ∧
    ∀ idx, idx < ts.length →
      ((ImageProcessor.process_bubble_sheet_page p g cc bc ts).getD idx
          BubbleDetectionResult.empty).bubble_center =
        (ImageProcessor.fallbackBubbleX g.width, 910 + idx * 95) := by
  have hnone : ImageProcessor.find_corner_markers g.width cc = none := by
    unfold ImageProcessor.find_corner_markers
    simp only []
    rw [if_pos h4]
  have hpa : ImageProcessor.pageAlignment g cc bc =
      ([], ImageProcessor.fallbackBubbleX g.width) := by
    unfold ImageProcessor.pageAlignment
    rw [hnone]
  refine ⟨hnone, hpa, ?_, ?_⟩
  · unfold ImageProcessor.process_bubble_sheet_page
    simp
  · intro idx hidx
    have hlen : idx <
        (ImageProcessor.process_bubble_sheet_page p g cc bc ts).length := by
      unfold ImageProcessor.process_bubble_sheet_page
      simpa using hidx
    rw [List.getD_eq_getElem _ _ hlen]
    unfold ImageProcessor.process_bubble_sheet_page
    simp only [hpa, List.getElem_map, List.getElem_range]
    rfl

/-- Witness for the amended C1 on a concrete contour-free page with one
templated student. -/
theorem claim_C1_witness :
    (ImageProcessor.squareCandidates whiteImg.width []).length < 4 ∧
    (ImageProcessor.find_corner_markers whiteImg.width [] = none ∧
      ImageProcessor.pageAlignment whiteImg [] [] =
        ([], ImageProcessor.fallbackBubbleX whiteImg.width) ∧
      (ImageProcessor.process_bubble_sheet_page ImageProcessor.mkDefault
        whiteImg [] [] [⟨1, "S1", "Alice"⟩]).length = 1 ∧
      ∀ idx, idx < 1 →
        ((ImageProcessor.process_bubble_sheet_page ImageProcessor.mkDefault
            whiteImg [] [] [⟨1, "S1", "Alice"⟩]).getD idx
            BubbleDetectionResult.empty).bubble_center =
          (ImageProcessor.fallbackBubbleX whiteImg.width, 910 + idx * 95)) :=
  ⟨by decide,
   claim_C1_fallback_amended ImageProcessor.mkDefault whiteImg [] []
     [⟨1, "S1", "Alice"⟩] (by decide)⟩

/-- C7 counterexample: on a concrete page the only result's fill fraction
equals the configured threshold exactly — zero distance from the
threshold, which the claim says yields the minimum confidence — yet the
reported confidence is `1`, the maximum of the clamp range, not `0`. -/
theorem claim_C7_counterexample :
    ((ImageProcessor.process_bubble_sheet_page ImageProcessor.mkDefault
        halfImg [] [] [⟨1, "S1", "Alice"⟩]).getD 0
        BubbleDetectionResult.empty).fill_percentage =
      ImageProcessor.mkDefault.bubble_fill_threshold ∧
    ((ImageProcessor.process_bubble_sheet_page ImageProcessor.mkDefault
        halfImg [] [] [⟨1, "S1", "Alice"⟩]).getD 0
        BubbleDetectionResult.empty).confidence = 1 ∧
    (1 : ℚ) ≠ 0 := by
  have hfrac : ((ImageProcessor.process_bubble_sheet_page
      ImageProcessor.mkDefault halfImg [] [] [⟨1, "S1", "Alice"⟩]).getD 0
      BubbleDetectionResult.empty).fill_percentage =
      (ImageProcessor.mkDefault.check_bubble_by_timing_mark halfImg
        910 12 42).2 := rfl
  have hval : (ImageProcessor.mkDefault.check_bubble_by_timing_mark halfImg
      910 12 42).2 = ((5 : ℚ) / 10) := rfl
  have hthr : ((5 : ℚ) / 10) = ImageProcessor.mkDefault.bubble_fill_threshold := by
    unfold ImageProcessor.mkDefault
    norm_num
  have hfilled : (ImageProcessor.mkDefault.check_bubble_by_timing_mark halfImg
      910 12 42).1 = true := by
    rw [ImageProcessor.check_bubble_fst_iff ImageProcessor.mkDefault halfImg
      910 12 42 one_half_pos, hval, ← hthr]
  have hconf : ((ImageProcessor.process_bubble_sheet_page
      ImageProcessor.mkDefault halfImg [] [] [⟨1, "S1", "Alice"⟩]).getD 0
      BubbleDetectionResult.empty).confidence =
      ImageProcessor.mkDefault.confidenceOf
        (ImageProcessor.mkDefault.check_bubble_by_timing_mark halfImg
          910 12 42).1
        (ImageProcessor.mkDefault.check_bubble_by_timing_mark halfImg
          910 12 42).2 := rfl
  refine ⟨hfrac.trans (hval.trans hthr), ?_, by norm_num⟩
  rw [hconf]
  exact ImageProcessor.confidenceOf_of_filled ImageProcessor.mkDefault halfImg
    910 12 42 one_half_pos hfilled

/-- C7 amended: every reported confidence lies in `[0, 1]`; when the
bubble is classified filled the confidence is the constant `1` (the clamp
of `min(fill/threshold, 1)` with `fill ≥ threshold`), not a distance;
only when it is classified unfilled is the confidence the normalized
distance of the fraction below the threshold,
`clamp(1 - fill/threshold)`. In particular a fill fraction exactly at the
threshold yields confidence `1`, the maximum. -/
theorem claim_C7_confidence_amended (p : ImageProcessor) (g : GrayImage)
    (cc bc : List Contour) (ts : List BubbleTemplate)
    (hthr : 0 < p.bubble_fill_threshold) :
    ∀ res ∈ ImageProcessor.process_bubble_sheet_page p g cc bc ts,
      (0 ≤ res.confidence ∧ res.confidence ≤ 1) ∧
      (res.is_filled = true → res.confidence = 1) ∧
      (res.is_filled = false →
        res.confidence =
          max 0 (min 1 (1 - res.fill_percentage / p.bubble_fill_threshold))) := by
  intro res hres
  obtain ⟨idx, hlt, heq⟩ := mem_process_iff p g cc bc ts res hres
  obtain ⟨y, x, hfill, hfrac, hconf⟩ :=
    ImageProcessor.detectRow_fields p g
      (ImageProcessor.pageAlignment g cc bc).1
      (ImageProcessor.pageAlignment g cc bc).2 idx (ts.getD idx ⟨0, "", ""⟩)
  rw [heq]
  refine ⟨by rw [hconf]; exact ImageProcessor.confidenceOf_mem_unit p _ _,
    ?_, ?_⟩
  · intro hf
    rw [hconf]
    exact ImageProcessor.confidenceOf_of_filled p g y x 42 hthr (hfill ▸ hf)
  · intro hf
    have hb : (p.check_bubble_by_timing_mark g y x 42).1 = false :=
      hfill.symm.trans hf
    rw [hconf, hfrac, hb]
    rfl

/-- Witness for the amended C7 on the concrete half-filled page. -/
theorem claim_C7_witness :
    0 < ImageProcessor.mkDefault.bubble_fill_threshold ∧
    ∀ res ∈ ImageProcessor.process_bubble_sheet_page ImageProcessor.mkDefault
        halfImg [] [] [⟨1, "S1", "Alice"⟩],
      (0 ≤ res.confidence ∧ res.confidence ≤ 1) ∧
      (res.is_filled = true → res.confidence = 1) ∧
      (res.is_filled = false →
        res.confidence =
          max 0 (min 1 (1 - res.fill_percentage /
            ImageProcessor.mkDefault.bubble_fill_threshold))) :=
  ⟨one_half_pos,
   claim_C7_confidence_amended ImageProcessor.mkDefault halfImg [] []
     [⟨1, "S1", "Alice"⟩] one_half_pos⟩

/-- C8 counterexample: on a concrete page where zero bubble marks are
found (fewer than the one expected student), the trailing unmatched
student is indeed reported unfilled without raising, but with confidence
`1`, not the claim's `0.0` — the row is measured at the expected position
rather than given a fixed `(False, 0.0)`. -/
theorem claim_C8_counterexample :
    (ImageProcessor.pageAlignment whiteImg [] []).1 = [] ∧
    ((ImageProcessor.process_bubble_sheet_page ImageProcessor.mkDefault
        whiteImg [] [] [⟨1, "S1", "Alice"⟩]).getD 0
        BubbleDetectionResult.empty).is_filled = false ∧
    ((ImageProcessor.process_bubble_sheet_page ImageProcessor.mkDefault
        whiteImg [] [] [⟨1, "S1", "Alice"⟩]).getD 0
        BubbleDetectionResult.empty).confidence = 1 ∧
    (1 : ℚ) ≠ 0 := by
  have hval : (ImageProcessor.mkDefault.check_bubble_by_timing_mark whiteImg
      910 12 42).2 = ((0 : ℚ) / 10) := rfl
  have hb : (ImageProcessor.mkDefault.check_bubble_by_timing_mark whiteImg
      910 12 42).1 = false := by
    rw [← Bool.not_eq_true,
      ImageProcessor.check_bubble_fst_iff ImageProcessor.mkDefault whiteImg
        910 12 42 one_half_pos, hval]
    unfold ImageProcessor.mkDefault
    norm_num
  have hfill : ((ImageProcessor.process_bubble_sheet_page
      ImageProcessor.mkDefault whiteImg [] [] [⟨1, "S1", "Alice"⟩]).getD 0
      BubbleDetectionResult.empty).is_filled =
      (ImageProcessor.mkDefault.check_bubble_by_timing_mark whiteImg
        910 12 42).1 := rfl
  have hconf : ((ImageProcessor.process_bubble_sheet_page
      ImageProcessor.mkDefault whiteImg [] [] [⟨1, "S1", "Alice"⟩]).getD 0
      BubbleDetectionResult.empty).confidence =
      ImageProcessor.mkDefault.confidenceOf
        (ImageProcessor.mkDefault.check_bubble_by_timing_mark whiteImg
          910 12 42).1
        (ImageProcessor.mkDefault.check_bubble_by_timing_mark whiteImg
          910 12 42).2 := rfl
  refine ⟨rfl, hfill.trans hb, ?_, by norm_num⟩
  rw [hconf, hb, hval]
  unfold ImageProcessor.confidenceOf ImageProcessor.mkDefault
  norm_num

/-- C8 amended: always exactly one `BubbleDetectionResult` per templated
student row, in template row order, never dropped and never raising; a
row with no detected bubble mark within 40 px of its expected y — in
particular every trailing unmatched student when fewer marks are found
than expected students — is still measured at the expected fallback
position, so its `is_filled`, `confidence` and `fill_percentage` come
from that measurement rather than being the fixed `(False, 0.0)`. -/
theorem claim_C8_results_amended (p : ImageProcessor) (g : GrayImage)
    (cc bc : List Contour) (ts : List BubbleTemplate) :
    ((ImageProcessor.process_bubble_sheet_page p g cc bc ts).map
        (fun r => (r.student_id, r.student_name)) =
      ts.map (fun t => (t.student_id, t.student_name))) ∧
    ∀ idx, idx < ts.length →
      (ImageProcessor.pageAlignment g cc bc).1.find?
          (fun b => |(b.2 : ℤ) - ((910 + idx * 95 : ℕ) : ℤ)| < 40) = none →
      ((ImageProcessor.process_bubble_sheet_page p g cc bc ts).getD idx
          BubbleDetectionResult.empty).is_filled =
        (p.check_bubble_by_timing_mark g ((910 + idx * 95 : ℕ) : ℤ)
          ((ImageProcessor.pageAlignment g cc bc).2 : ℤ) 42).1 ∧
      ((ImageProcessor.process_bubble_sheet_page p g cc bc ts).getD idx
          BubbleDetectionResult.empty).fill_percentage =
        (p.check_bubble_by_timing_mark g ((910 + idx * 95 : ℕ) : ℤ)
          ((ImageProcessor.pageAlignment g cc bc).2 : ℤ) 42).2 ∧
      ((ImageProcessor.process_bubble_sheet_page p g cc bc ts).getD idx
          BubbleDetectionResult.empty).bubble_center =
        ((ImageProcessor.pageAlignment g cc bc).2, 910 + idx * 95) := by
  constructor
  · unfold ImageProcessor.process_bubble_sheet_page
    dsimp only
    rw [List.map_map]
    exact range_map_getD ts ⟨0, "", ""⟩
      (fun t => (t.student_id, t.student_name))
  · intro idx hidx hfind
    have hlen : idx <
        (ImageProcessor.process_bubble_sheet_page p g cc bc ts).length := by
      unfold ImageProcessor.process_bubble_sheet_page
      simpa using hidx
    rw [List.getD_eq_getElem _ _ hlen]
    unfold ImageProcessor.process_bubble_sheet_page
    simp only [List.getElem_map, List.getElem_range]
    unfold ImageProcessor.detectRow
    dsimp only
    split
    · next bcx bcy heq =>
        rw [hfind] at heq
        exact Option.noConfusion heq
    · next heq => exact ⟨rfl, rfl, rfl⟩

/-- Witness for the amended C8 on the concrete all-white page with one
templated student and zero detected marks. -/
theorem claim_C8_witness :
    ((ImageProcessor.process_bubble_sheet_page ImageProcessor.mkDefault
        whiteImg [] [] [⟨1, "S1", "Alice"⟩]).map
        (fun r => (r.student_id, r.student_name)) = [("S1", "Alice")]) ∧
    (((ImageProcessor.process_bubble_sheet_page ImageProcessor.mkDefault
        whiteImg [] [] [⟨1, "S1", "Alice"⟩]).getD 0
        BubbleDetectionResult.empty).is_filled =
      (ImageProcessor.mkDefault.check_bubble_by_timing_mark whiteImg
        ((910 + 0 * 95 : ℕ) : ℤ)
        ((ImageProcessor.pageAlignment whiteImg [] []).2 : ℤ) 42).1 ∧
    ((ImageProcessor.process_bubble_sheet_page ImageProcessor.mkDefault
        whiteImg [] [] [⟨1, "S1", "Alice"⟩]).getD 0
        BubbleDetectionResult.empty).fill_percentage =
      (ImageProcessor.mkDefault.check_bubble_by_timing_mark whiteImg
        ((910 + 0 * 95 : ℕ) : ℤ)
        ((ImageProcessor.pageAlignment whiteImg [] []).2 : ℤ) 42).2 ∧
    ((ImageProcessor.process_bubble_sheet_page ImageProcessor.mkDefault
        whiteImg [] [] [⟨1, "S1", "Alice"⟩]).getD 0
        BubbleDetectionResult.empty).bubble_center =
      ((ImageProcessor.pageAlignment whiteImg [] []).2, 910 + 0 * 95)) :=
  ⟨(claim_C8_results_amended ImageProcessor.mkDefault whiteImg [] []
      [⟨1, "S1", "Alice"⟩]).1,
   (claim_C8_results_amended ImageProcessor.mkDefault whiteImg [] []
      [⟨1, "S1", "Alice"⟩]).2 0 (by decide) rfl⟩

namespace BarcodeGenerator

lemma digitChar_isDigit {d : ℕ} (h : d < 10) :
    (Nat.digitChar d).isDigit = true := by
  interval_cases d <;> decide

lemma digitVal_digitChar {d : ℕ} (h : d < 10) :
    digitVal (Nat.digitChar d) = d := by
  interval_cases d <;> decide

lemma digitsVal_append_singleton (l : List Char) (c : Char) :
    digitsVal (l ++ [c]) = 10 * digitsVal l + digitVal c := by
  simp [digitsVal, List.foldl_append]

lemma aux_all_digits :
    ∀ fuel n, n < fuel → ∀ c ∈ natDigitCharsAux fuel n, c.isDigit = true := by
  intro fuel
  induction fuel with
  | zero => intro n hn; omega
  | succ fuel ih =>
      intro n hn c hc
      unfold natDigitCharsAux at hc
      by_cases h10 : n < 10
      · simp only [if_pos h10, List.mem_singleton] at hc
        exact hc ▸ digitChar_isDigit h10
      · simp only [if_neg h10, List.mem_append, List.mem_singleton] at hc
        rcases hc with hc | hc
        · exact ih (n / 10) (by omega) c hc
        · exact hc ▸ digitChar_isDigit (Nat.mod_lt _ (by omega))

lemma aux_val :
    ∀ fuel n, n < fuel → digitsVal (natDigitCharsAux fuel n) = n := by
  intro fuel
  induction fuel with
  | zero => intro n hn; omega
  | succ fuel ih =>
      intro n hn
      unfold natDigitCharsAux
      by_cases h10 : n < 10
      · simp only [if_pos h10]
        simp [digitsVal, digitVal_digitChar h10]
      · simp only [if_neg h10]
        rw [digitsVal_append_singleton, ih (n / 10) (by omega),
          digitVal_digitChar (Nat.mod_lt _ (by omega))]
        omega

lemma aux_len : ∀ fuel n k, n < fuel → n < 10 ^ k → 0 < k →
    (natDigitCharsAux fuel n).length ≤ k := by
  intro fuel
  induction fuel with
  | zero => intro n k hn; omega
  | succ fuel ih =>
      intro n k hn hk hk0
      unfold natDigitCharsAux
      by_cases h10 : n < 10
      · simp [if_pos h10]; omega
      · simp only [if_neg h10, List.length_append, List.length_singleton]
        have hk2 : 2 ≤ k := by
          by_contra hlt
          have : k = 1 := by omega
          subst this
          simp at hk
          omega
        have hdiv : n / 10 < 10 ^ (k - 1) := by
          rw [Nat.div_lt_iff_lt_mul (by norm_num)]
          calc n < 10 ^ k := hk
            _ = 10 ^ (k - 1) * 10 := by
                rw [← pow_succ]
                congr 1
                omega
        have := ih (n / 10) (k - 1) (by omega) hdiv (by omega)
        omega

lemma natDigitChars_val (n : ℕ) : digitsVal (natDigitChars n) = n :=
  aux_val (n + 1) n (Nat.lt_succ_self n)

lemma natDigitChars_all_digits (n : ℕ) :
    ∀ c ∈ natDigitChars n, c.isDigit = true :=
  aux_all_digits (n + 1) n (Nat.lt_succ_self n)

lemma natDigitChars_len {n k : ℕ} (hk : n < 10 ^ k) (hk0 : 0 < k) :
    (natDigitChars n).length ≤ k :=
  aux_len (n + 1) n k (Nat.lt_succ_self n) hk hk0

lemma foldl_zeros (m : ℕ) :
    List.foldl (fun acc c => 10 * acc + digitVal c) 0
      (List.replicate m '0') = 0 := by
  induction m with
  | zero => rfl
  | succ m ih => simpa [List.replicate_succ, digitVal] using ih

lemma formatPadded_length {k n : ℕ} (hk : n < 10 ^ k) (hk0 : 0 < k) :
    (formatPadded k n).length = k := by
  unfold formatPadded
  have := natDigitChars_len hk hk0
  simp only [List.length_append, List.length_replicate]
  omega

lemma formatPadded_val (k n : ℕ) : digitsVal (formatPadded k n) = n := by
  unfold formatPadded digitsVal
  rw [List.foldl_append, foldl_zeros]
  exact natDigitChars_val n

lemma formatPadded_all_digits (k n : ℕ) :
    ∀ c ∈ formatPadded k n, c.isDigit = true := by
  intro c hc
  unfold formatPadded at hc
  simp only [List.mem_append, List.mem_replicate] at hc
  rcases hc with ⟨_, hc⟩ | hc
  · subst hc; decide
  · exact natDigitChars_all_digits n c hc

lemma isDigit_not_space {c : Char} (h : c.isDigit = true) :
    isPySpace c = false := by
  by_contra hb
  have hs : isPySpace c = true := by
    cases hx : isPySpace c
    · exact absurd hx hb
    · rfl
  unfold isPySpace at hs
  rw [decide_eq_true_iff] at hs
  rcases hs with h1 | h1 | h1 | h1 | h1 | h1 <;> subst h1 <;> simp at h

lemma dropWhile_space_of_digits {s : List Char}
    (h : ∀ c ∈ s, c.isDigit = true) : s.dropWhile isPySpace = s := by
  cases s with
  | nil => rfl
  | cons c rest =>
      rw [List.dropWhile_cons,
        isDigit_not_space (h c (List.mem_cons_self c rest))]
      simp

lemma pyInt_digits {s : List Char} (hne : s ≠ [])
    (h : ∀ c ∈ s, c.isDigit = true) :
    pyIntOfChars s = some ((digitsVal s : ℤ)) := by
  unfold pyIntOfChars
  have h1 : s.dropWhile isPySpace = s := dropWhile_space_of_digits h
  have h2 : s.reverse.dropWhile isPySpace = s.reverse :=
    dropWhile_space_of_digits (by simpa using h)
  rw [h1, h2, List.reverse_reverse]
  obtain ⟨c, rest, rfl⟩ := List.exists_cons_of_ne_nil hne
  have hcd := h c (List.mem_cons_self c rest)
  have hplus : c ≠ '+' := by intro he; subst he; simp at hcd
  have hminus : c ≠ '-' := by intro he; subst he; simp at hcd
  simp only [if_neg hplus, if_neg hminus]
  rw [if_pos ⟨List.cons_ne_nil c rest, by simpa [List.all_eq_true] using h⟩,
    one_mul]

lemma decode_ok_iff (mapping : List (List Char × String)) (s : List Char) :
    (∃ d, decode_barcode_data mapping s = Except.ok d) ↔
      (s.length = 12 ∧ (pyIntOfChars ((s.drop 8).take 2)).isSome ∧
        (pyIntOfChars ((s.drop 10).take 2)).isSome) := by
  unfold decode_barcode_data
  by_cases hl : s.length = 12
  · simp only [hl, ne_eq, not_true_eq_false, if_false]
    cases hp : pyIntOfChars ((s.drop 8).take 2) with
    | none => simp [hp]
    | some pv =>
        cases ht : pyIntOfChars ((s.drop 10).take 2) with
        | none => simp [hp, ht]
        | some tv => simp [hp, ht]
  · simp [hl]

lemma h8_len (v : ℕ) : (formatPadded 8 (v % 100000000)).length = 8 :=
  formatPadded_length
    (by have := Nat.mod_lt v (show 0 < 100000000 by norm_num)
        norm_num
        omega)
    (by norm_num)

lemma p2_len {n : ℕ} (h : n ≤ 99) : (formatPadded 2 n).length = 2 :=
  formatPadded_length (by norm_num; omega) (by norm_num)

lemma formatPadded_ne_nil {k n : ℕ} (h : 0 < (formatPadded k n).length) :
    formatPadded k n ≠ [] :=
  List.ne_nil_of_length_pos h

end BarcodeGenerator

/-- C4 counterexample: the claim quantifies over all integers `page` and
`total`, but for `page = 100` the payload `encode` produces is 13
characters long (`f"{100:02d}"` does not truncate), so `decode` rejects
it with the format error instead of recovering `page` and `total`. -/
theorem claim_C4_counterexample :
    (BarcodeGenerator.generate_barcode_data (fun _ => 0) "L" 100 1).length
      = 13 ∧
    BarcodeGenerator.decode_barcode_data []
      (BarcodeGenerator.generate_barcode_data (fun _ => 0) "L" 100 1) =
      Except.error "Invalid barcode format" :=
  ⟨rfl, rfl⟩

/-- C4 amended: for every lecture-id hash and all `page, total` in
`[0, 99]` (the only values the 2-digit fields can carry), decoding the
12-digit payload produced by encode recovers `page` and `total` exactly,
and recovers `lecture_id` exactly whenever the hash-to-lecture-id mapping
entry saved at encode time is present; when it is absent only the
synthetic id `"LEC-"+hash` is returned. -/
theorem claim_C4_roundtrip (hashAbs : String → ℕ)
    (mapping : List (List Char × String)) (lecture_id : String)
    (page total : ℕ) (hp : page ≤ 99) (ht : total ≤ 99) :
    ∃ d, BarcodeGenerator.decode_barcode_data mapping
        (BarcodeGenerator.generate_barcode_data hashAbs lecture_id page
          total) = Except.ok d ∧
      d.page = (page : ℤ) ∧ d.total_pages = (total : ℤ) ∧
      d.hash = BarcodeGenerator.formatPadded 8
        (hashAbs lecture_id % 100000000) ∧
      (∀ lid, BarcodeGenerator.lookupMapping mapping d.hash = some lid →
        d.lecture_id = lid) ∧
      (BarcodeGenerator.lookupMapping mapping d.hash = none →
        d.lecture_id = "LEC-" ++ String.mk d.hash) := by
  set h8 := BarcodeGenerator.formatPadded 8 (hashAbs lecture_id % 100000000)
    with hh8
  set p2 := BarcodeGenerator.formatPadded 2 page with hp2
  set t2 := BarcodeGenerator.formatPadded 2 total with ht2
  have l8 : h8.length = 8 := BarcodeGenerator.h8_len _
  have l2p : p2.length = 2 := BarcodeGenerator.p2_len hp
  have l2t : t2.length = 2 := BarcodeGenerator.p2_len ht
  have hgen : BarcodeGenerator.generate_barcode_data hashAbs lecture_id page
      total = h8 ++ (p2 ++ t2) := by
    unfold BarcodeGenerator.generate_barcode_data
    rw [List.append_assoc]
  have hlen : (h8 ++ (p2 ++ t2)).length = 12 := by
    simp [l8, l2p, l2t]
  have htk8 : (h8 ++ (p2 ++ t2)).take 8 = h8 := by
    rw [← l8]
    exact List.take_left h8 (p2 ++ t2)
  have hdp8 : ((h8 ++ (p2 ++ t2)).drop 8).take 2 = p2 := by
    rw [show (8 : ℕ) = h8.length from l8.symm, List.drop_left h8 (p2 ++ t2),
      ← l2p]
    exact List.take_left p2 t2
  have hdp10 : ((h8 ++ (p2 ++ t2)).drop 10).take 2 = t2 := by
    have h10 : (10 : ℕ) = h8.length + 2 := by omega
    rw [h10, List.drop_append, show (2 : ℕ) = p2.length from l2p.symm,
      List.drop_left p2 t2]
    exact List.take_of_length_le (by omega)
  have hpint : BarcodeGenerator.pyIntOfChars p2 = some ((page : ℤ)) := by
    have := BarcodeGenerator.pyInt_digits
      (BarcodeGenerator.formatPadded_ne_nil (by rw [← hp2] at *; omega))
      (BarcodeGenerator.formatPadded_all_digits 2 page)
    rw [← hp2] at this
    rw [this, BarcodeGenerator.formatPadded_val]
  have htint : BarcodeGenerator.pyIntOfChars t2 = some ((total : ℤ)) := by
    have := BarcodeGenerator.pyInt_digits
      (BarcodeGenerator.formatPadded_ne_nil (by rw [← ht2] at *; omega))
      (BarcodeGenerator.formatPadded_all_digits 2 total)
    rw [← ht2] at this
    rw [this, BarcodeGenerator.formatPadded_val]
  rw [hgen]
  unfold BarcodeGenerator.decode_barcode_data
  rw [if_neg (by rw [hlen]; exact fun h => h rfl)]
  rw [htk8, hdp8, hdp10, hpint, htint]
  refine ⟨_, rfl, rfl, rfl, rfl, ?_, ?_⟩
  · intro lid hl
    simp [hl]
  · intro hn
    simp [hn]

/-- Witness for the amended C4 at a concrete hash, page 7 of 9, empty
mapping (synthetic-id branch). -/
theorem claim_C4_witness :
    7 ≤ 99 ∧ 9 ≤ 99 ∧
    ∃ d, BarcodeGenerator.decode_barcode_data []
        (BarcodeGenerator.generate_barcode_data (fun _ => 12345678) "LEC-X"
          7 9) = Except.ok d ∧
      d.page = ((7 : ℕ) : ℤ) ∧ d.total_pages = ((9 : ℕ) : ℤ) ∧
      d.hash = BarcodeGenerator.formatPadded 8 (12345678 % 100000000) ∧
      (∀ lid, BarcodeGenerator.lookupMapping [] d.hash = some lid →
        d.lecture_id = lid) ∧
      (BarcodeGenerator.lookupMapping [] d.hash = none →
        d.lecture_id = "LEC-" ++ String.mk d.hash) :=
  ⟨by decide, by decide,
   claim_C4_roundtrip (fun _ => 12345678) [] "LEC-X" 7 9 (by decide)
     (by decide)⟩

/-- C5 counterexample: `"ABCDEFGH0101"` is not a string of 12 numeric
characters, yet `decode` does not raise — the 8-character hash prefix is
never validated, so decoding returns the synthetic id built from the
non-numeric prefix. -/
theorem claim_C5_counterexample :
    BarcodeGenerator.decode_barcode_data [] "ABCDEFGH0101".toList =
      Except.ok ⟨"LEC-ABCDEFGH", 1, 1, "ABCDEFGH".toList⟩ ∧
    ¬ ("ABCDEFGH0101".toList.all Char.isDigit = true) :=
  ⟨rfl, by decide⟩

/-- C5 amended: `decode` returns without raising exactly when the input
has length 12 and its character pairs at positions 8–9 and 10–11 both
parse under `int()`; the first 8 characters are not validated. Every
well-formed 12-digit numeric input therefore returns without raising,
substituting the synthetic id `"LEC-"+hash` when the 8-character hash
prefix is unmapped. -/
theorem claim_C5_format_amended (mapping : List (List Char × String))
    (s : List Char) :
    ((∃ d, BarcodeGenerator.decode_barcode_data mapping s = Except.ok d) ↔
      (s.length = 12 ∧
        (BarcodeGenerator.pyIntOfChars ((s.drop 8).take 2)).isSome ∧
        (BarcodeGenerator.pyIntOfChars ((s.drop 10).take 2)).isSome)) ∧
    (s.length = 12 → (∀ c ∈ s, c.isDigit = true) →
      ∃ d, BarcodeGenerator.decode_barcode_data mapping s = Except.ok d ∧
        d.hash = s.take 8 ∧
        (BarcodeGenerator.lookupMapping mapping (s.take 8) = none →
          d.lecture_id = "LEC-" ++ String.mk (s.take 8))) := by
  refine ⟨BarcodeGenerator.decode_ok_iff mapping s, fun hl hd => ?_⟩
  have hne8 : (s.drop 8).take 2 ≠ [] := by
    apply List.ne_nil_of_length_pos
    simp [hl]
  have hne10 : (s.drop 10).take 2 ≠ [] := by
    apply List.ne_nil_of_length_pos
    simp [hl]
  have hp := BarcodeGenerator.pyInt_digits hne8 (fun c hc =>
    hd c (List.mem_of_mem_drop (List.mem_of_mem_take hc)))
  have ht := BarcodeGenerator.pyInt_digits hne10 (fun c hc =>
    hd c (List.mem_of_mem_drop (List.mem_of_mem_take hc)))
  unfold BarcodeGenerator.decode_barcode_data
  rw [if_neg (by rw [hl]; exact fun h => h rfl)]
  rw [hp, ht]
  exact ⟨_, rfl, rfl, fun hn => by simp [hn]⟩

/-- Witness for the amended C5 on the concrete well-formed numeric
payload `"000000010203"` with an empty mapping. -/
theorem claim_C5_witness :
    ((∃ d, BarcodeGenerator.decode_barcode_data [] "000000010203".toList =
        Except.ok d) ↔
      ("000000010203".toList.length = 12 ∧
        (BarcodeGenerator.pyIntOfChars
          (("000000010203".toList.drop 8).take 2)).isSome ∧
        (BarcodeGenerator.pyIntOfChars
          (("000000010203".toList.drop 10).take 2)).isSome)) ∧
    ("000000010203".toList.length = 12 ∧
      ∃ d, BarcodeGenerator.decode_barcode_data [] "000000010203".toList =
          Except.ok d ∧
        d.hash = "000000010203".toList.take 8 ∧
        (BarcodeGenerator.lookupMapping [] ("000000010203".toList.take 8) =
            none →
          d.lecture_id =
            "LEC-" ++ String.mk ("000000010203".toList.take 8))) :=
  ⟨(claim_C5_format_amended [] "000000010203".toList).1,
   by decide,
   (claim_C5_format_amended [] "000000010203".toList).2 (by decide)
     (by decide)⟩

/-- C2, evaluated at the failing input: from the fresh attendance-service
breaker, three consecutive downstream failures (times 0, 1, 2) open the
breaker, and the two records submitted at times 3 and 4 — inside the 15 s
window — are rejected immediately without executing the network call (the
record at time 3 would even have succeeded downstream, yet yields no
success). But contrary to the claim, the rejections are NOT counted in
`cb_rejected`: the loop recognises rejections with
`"circuit is OPEN" in error_msg`, while the breaker's raised message is
`"Circuit breaker [attendance-service] is OPEN - service unavailable
(retry in 14s)"`, which does not contain that substring (only the
breaker's console log line does). So both rejections land in `errors`
(5 total) and `cb_rejected` stays 0 — the counter the function's own
docstring and summary design exist to populate is unreachable. -/
theorem claim_C2_code_bug :
    (OMRProcessor.send_to_attendance_service attendanceCB
        [(0, Except.error "HTTP 500: Internal Server Error"),
         (1, Except.error "HTTP 500: Internal Server Error"),
         (2, Except.error "HTTP 500: Internal Server Error"),
         (3, Except.ok ()),
         (4, Except.error "HTTP 500: Internal Server Error")]).1 =
      { total_records := 5
        success := 0
        errors := 5
        cb_rejected := 0
        status := "partial_success" } ∧
    (OMRProcessor.send_to_attendance_service attendanceCB
        [(0, Except.error "HTTP 500: Internal Server Error"),
         (1, Except.error "HTTP 500: Internal Server Error"),
         (2, Except.error "HTTP 500: Internal Server Error"),
         (3, Except.ok ()),
         (4, Except.error "HTTP 500: Internal Server Error")]).2.state =
      CircuitState.opened ∧
    (CircuitBreaker.call
        ⟨"attendance-service", 3, 15, 2, 3, 0, some 2, CircuitState.opened⟩
        3 (Except.ok ())).1 =
      Except.error
        ("Circuit breaker [attendance-service] is OPEN - " ++
          "service unavailable (retry in 14s)") ∧
    strContains "circuit is OPEN".toList
      ("Circuit breaker [attendance-service] is OPEN - " ++
        "service unavailable (retry in 14s)").toList = false :=
  ⟨by decide, rfl, rfl, by decide⟩

/-- C3 counterexample: a one-page document whose decoded lecture has no
template for that page contributes zero students, but the job's returned
status is the literal `'success'` — contradicting the claim that the
status is not `'success'` when the only page fails. -/
theorem claim_C3_counterexample :
    (OMRProcessor.process_scanned_pdf ImageProcessor.mkDefault
        [pageNoTemplate]).total_students = 0 ∧
    (OMRProcessor.process_scanned_pdf ImageProcessor.mkDefault
        [pageNoTemplate]).attendance_records = [] ∧
    (OMRProcessor.process_scanned_pdf ImageProcessor.mkDefault
        [pageNoTemplate]).status = "success" :=
  ⟨rfl, rfl, rfl⟩

/-- C3 amended: a page whose decoded lecture identifier has no matching
stored template fails with a plain `ValueError` (no `TemplateNotFoundError`
class exists), which the orchestrator's per-page `try/except` swallows:
the page contributes zero students and zero records. However the job's
returned status is the hard-coded literal `'success'` for every input,
including when the failing page is the document's only page. -/
theorem claim_C3_status_amended (p : ImageProcessor) (env : PageEnv)
    (info : BarcodeInfo) (hb : env.barcode = Except.ok info)
    (hf : ∀ ts, env.fetched = Except.ok ts →
      (ts.filter (fun t => t.page_number == info.page)).isEmpty = true) :
    ((OMRProcessor.process_scanned_pdf p [env]).total_students = 0 ∧
      (OMRProcessor.process_scanned_pdf p [env]).attendance_records = [] ∧
      (OMRProcessor.process_scanned_pdf p [env]).status = "success") ∧
    ∀ pages : List PageEnv,
      (OMRProcessor.process_scanned_pdf p pages).status = "success" := by
  have hstep : OMRProcessor.pageStep p (none, []) env =
      (some info.lecture_id, []) := by
    unfold OMRProcessor.pageStep
    rw [hb]
    cases henv : env.fetched with
    | error e => rfl
    | ok ts =>
        have hemp := hf ts henv
        simp [hemp]
  constructor
  · have hfold : [env].foldl (OMRProcessor.pageStep p) (none, []) =
        (some info.lecture_id, []) := by
      simp only [List.foldl_cons, List.foldl_nil, hstep]
    unfold OMRProcessor.process_scanned_pdf
    rw [hfold]
    exact ⟨rfl, rfl, rfl⟩
  · intro pages
    rfl

/-- Witness for the amended C3 on the concrete no-template page. -/
theorem claim_C3_witness :
    pageNoTemplate.barcode = Except.ok ⟨"L1", none, none, 1, 1⟩ ∧
    ((OMRProcessor.process_scanned_pdf ImageProcessor.mkDefault
        [pageNoTemplate]).total_students = 0 ∧
      (OMRProcessor.process_scanned_pdf ImageProcessor.mkDefault
        [pageNoTemplate]).attendance_records = [] ∧
      (OMRProcessor.process_scanned_pdf ImageProcessor.mkDefault
        [pageNoTemplate]).status = "success") ∧
    ∀ pages : List PageEnv,
      (OMRProcessor.process_scanned_pdf ImageProcessor.mkDefault
        pages).status = "success" :=
  ⟨rfl,
   (claim_C3_status_amended ImageProcessor.mkDefault pageNoTemplate
      ⟨"L1", none, none, 1, 1⟩ rfl (fun ts hts => by
        cases hts
        rfl)).1,
   (claim_C3_status_amended ImageProcessor.mkDefault pageNoTemplate
      ⟨"L1", none, none, 1, 1⟩ rfl (fun ts hts => by
        cases hts
        rfl)).2⟩

namespace PDFGen

lemma save_length (lid : String) (p : ℕ) (students : List Student)
    (bounds : Option Bounds) :
    (save_bubble_coordinates lid p students bounds).length =
      students.length := by
  simp [save_bubble_coordinates]

lemma save_page_number (lid : String) (p : ℕ) (students : List Student)
    (bounds : Option Bounds) :
    ∀ r ∈ save_bubble_coordinates lid p students bounds,
      r.page_number = p := by
  intro r hr
  unfold save_bubble_coordinates at hr
  simp only [List.mem_map, List.mem_range] at hr
  obtain ⟨i, hi, heq⟩ := hr
  subst heq
  rfl

lemma filter_flatMap_length (f : ℕ → List TemplateRecord) (pnum : ℕ)
    (hpg : ∀ i r, r ∈ f i → r.page_number = i + 1) :
    ∀ l : List ℕ,
      ((l.flatMap f).filter (fun r => r.page_number == pnum)).length =
        ((l.filter (fun i => i + 1 == pnum)).map
          (fun i => (f i).length)).sum := by
  intro l
  induction l with
  | nil => rfl
  | cons i l ih =>
      simp only [List.flatMap_cons, List.filter_append, List.length_append,
        ih, List.filter_cons]
      by_cases h : i + 1 = pnum
      · have hself : (f i).filter (fun r => r.page_number == pnum) = f i := by
          apply List.filter_eq_self.2
          intro r hr
          simp [hpg i r hr, h]
        simp [h, hself]
      · have hnil : (f i).filter (fun r => r.page_number == pnum) = [] := by
          apply List.filter_eq_nil_iff.2
          intro r hr
          simp [hpg i r hr, h]
        simp [h, hnil]

lemma range_filter_eq {n pnum : ℕ} (h1 : 1 ≤ pnum) (h2 : pnum ≤ n) :
    (List.range n).filter (fun i => i + 1 == pnum) = [pnum - 1] := by
  induction n with
  | zero => omega
  | succ n ih =>
      rw [List.range_succ, List.filter_append]
      by_cases hlt : pnum ≤ n
      · rw [ih hlt]
        have hne : ¬(n + 1 = pnum) := by omega
        simp [List.filter_cons, hne]
      · have hnil : (List.range n).filter (fun i => i + 1 == pnum) = [] := by
          apply List.filter_eq_nil_iff.2
          intro i hi
          simp only [List.mem_range] at hi
          simp only [beq_iff_eq]
          omega
        rw [hnil]
        have heq : (n + 1 = pnum) := by omega
        simp [List.filter_cons, heq]
        omega

lemma mmQ_pos : (0 : ℚ) < mmQ := by norm_num [mmQ]

lemma save_ratios (lid : String) (p : ℕ) (students : List Student) :
    ∀ r ∈ save_bubble_coordinates lid p students
        (some (bubbleAreaBounds students.length)),
      (0 ≤ r.bubble_x_ratio ∧ r.bubble_x_ratio ≤ 1) ∧
      (0 ≤ r.bubble_y_ratio ∧ r.bubble_y_ratio ≤ 1) := by
  intro r hr
  unfold save_bubble_coordinates at hr
  simp only [List.mem_map, List.mem_range] at hr
  obtain ⟨i, hi, heq⟩ := hr
  have hin : (i : ℚ) ≤ (students.length : ℚ) - 1 := by
    have : (i : ℚ) + 1 ≤ (students.length : ℚ) := by exact_mod_cast hi
    linarith
  have hi0 : (0 : ℚ) ≤ (i : ℚ) := by positivity
  subst heq
  constructor
  · constructor
    · simp only [bubbleAreaBounds]
      unfold bubble_x_offset pageWidth
      apply div_nonneg <;> nlinarith [mmQ_pos]
    · simp only [bubbleAreaBounds]
      unfold bubble_x_offset pageWidth
      rw [div_le_one (by nlinarith [mmQ_pos])]
      nlinarith [mmQ_pos]
  · constructor
    · simp only [bubbleAreaBounds]
      unfold first_bubble_y pageHeight header_height row_height
      apply div_nonneg
      · ring_nf
        nlinarith [mmQ_pos, hin]
      · ring_nf
        nlinarith [mmQ_pos, hin]
    · simp only [bubbleAreaBounds]
      unfold first_bubble_y pageHeight header_height row_height
      rw [div_le_one (by ring_nf; nlinarith [mmQ_pos, hin])]
      ring_nf
      nlinarith [mmQ_pos, hin, hi0]

end PDFGen

/-- C9: for every non-empty student list, on every generated page the
number of persisted template records equals the number of students
assigned to that page, and every persisted `bubble_x_ratio` and
`bubble_y_ratio` lies in `[0, 1]` (the x ratio is in fact the constant
`3/5`, and the y ratio is `(8·(n−1−i) + 10) / (8·(n−1) + 20)` for row
`i` of an `n`-row page). -/
theorem claim_C9_templates (lid : String) (students : List PDFGen.Student)
    (_hne : students ≠ []) :
    (∀ pnum, 1 ≤ pnum → pnum ≤ PDFGen.totalPagesOf students.length →
      ((PDFGen.generate_bubble_sheet lid students).filter
        (fun r => r.page_number == pnum)).length =
        (PDFGen.pageStudents students pnum).length) ∧
    ∀ r ∈ PDFGen.generate_bubble_sheet lid students,
      (0 ≤ r.bubble_x_ratio ∧ r.bubble_x_ratio ≤ 1) ∧
      (0 ≤ r.bubble_y_ratio ∧ r.bubble_y_ratio ≤ 1) := by
  constructor
  · intro pnum h1 h2
    unfold PDFGen.generate_bubble_sheet
    rw [PDFGen.filter_flatMap_length _ pnum
      (fun i r hr => PDFGen.save_page_number lid (i + 1) _ _ r hr),
      PDFGen.range_filter_eq h1 h2]
    simp only [List.map_cons, List.map_nil, List.sum_cons, List.sum_nil,
      add_zero]
    rw [PDFGen.save_length, Nat.sub_add_cancel h1]
  · intro r hr
    unfold PDFGen.generate_bubble_sheet at hr
    simp only [List.mem_flatMap, List.mem_range] at hr
    obtain ⟨i, hi, hmem⟩ := hr
    exact PDFGen.save_ratios lid (i + 1) _ r hmem

/-- Witness for C9 on a concrete two-student roster. -/
theorem claim_C9_witness :
    ([⟨"1", "A"⟩, ⟨"2", "B"⟩] : List PDFGen.Student) ≠ [] ∧
    ((∀ pnum, 1 ≤ pnum →
      pnum ≤ PDFGen.totalPagesOf
        ([⟨"1", "A"⟩, ⟨"2", "B"⟩] : List PDFGen.Student).length →
      ((PDFGen.generate_bubble_sheet "LEC-1"
          [⟨"1", "A"⟩, ⟨"2", "B"⟩]).filter
        (fun r => r.page_number == pnum)).length =
        (PDFGen.pageStudents [⟨"1", "A"⟩, ⟨"2", "B"⟩] pnum).length) ∧
    ∀ r ∈ PDFGen.generate_bubble_sheet "LEC-1" [⟨"1", "A"⟩, ⟨"2", "B"⟩],
      (0 ≤ r.bubble_x_ratio ∧ r.bubble_x_ratio ≤ 1) ∧
      (0 ≤ r.bubble_y_ratio ∧ r.bubble_y_ratio ≤ 1)) :=
  ⟨by decide,
   claim_C9_templates "LEC-1" [⟨"1", "A"⟩, ⟨"2", "B"⟩] (by decide)⟩
